import Mathlib

/-!
# Verification of the Vorio Agent adapter normalization and sync protocol

A shallow embedding, in Lean 4, of the core logic of the Vorio Agent
(`src/adapters/unifi.ts`, the sync service and the Vorio cloud client):

* the voucher field-mapping `mapVouchers` from raw UniFi records (legacy
  snake_case and modern camelCase conventions) to the canonical
  `MappedVoucher` shape, with JavaScript truthiness (`||`, `??`) modelled
  explicitly;
* the session-expiry (HTTP 401) re-login-and-retry behaviour of
  `fetchRawVouchers` / `deleteVoucher`, modelled against a script of
  per-attempt outcomes;
* `getAvailableWLANs` and its swallow-all error handling;
* `login` / `testConnectivity` and connection-error classification;
* the sync service command loop (`processCommands` / `processCommand`)
  with its acknowledge / dispatch / complete event trace.

Numbers are modelled as `Int` (the integer fragment of JS numbers used by
the program: counts, quotas, unix seconds, kbps). ISO date parsing
(`new Date(s).getTime()`) is abstracted as an explicit `String → Int`
parameter, and the ambient clock (`Date.now()`) as an explicit `now : Int`
argument, so that every function here is a pure function of its inputs.
-/

namespace VorioAgent

/-! ## JavaScript truthiness helpers

`a || b` on numbers picks `a` unless it is `0` (or absent); on strings
unless it is `""` (or absent). `a ?? b` picks `a` unless it is absent.
An absent optional field is `none`.
-/

/-- JS `a || b` where `a` is an optional number and `b` a number:
`0` and `undefined` are falsy. -/
def jsOrNum (a : Option Int) (b : Int) : Int :=
  match a with
  | none => b
  | some x => if x = 0 then b else x

/-- JS `a || b` where both sides are optional numbers (the result can be
`undefined`, or even a present falsy `b`). -/
def jsOrNumOpt (a b : Option Int) : Option Int :=
  match a with
  | none => b
  | some x => if x = 0 then b else some x

/-- JS `a || b` where `a` is an optional string and `b` a string:
`""` and `undefined` are falsy. -/
def jsOrStr (a : Option String) (b : String) : String :=
  match a with
  | none => b
  | some s => if s = "" then b else s

/-- JS `a || b` on optional strings. -/
def jsOrStrOpt (a b : Option String) : Option String :=
  match a with
  | none => b
  | some s => if s = "" then b else some s

/-- JS truthiness of an optional number (`undefined` and `0` are falsy). -/
def jsTruthyNum (a : Option Int) : Bool :=
  match a with
  | none => false
  | some x => x != 0

/-- JS truthiness of an optional string (`undefined` and `""` are falsy). -/
def jsTruthyStr (a : Option String) : Bool :=
  match a with
  | none => false
  | some s => s != ""

/-! ## Data model

`UniFiVoucher` carries the fields of the raw controller record that
`mapVouchers` reads; as in the TypeScript type, every field except `code`
is optional, and the legacy (snake_case) and modern (camelCase) variants
coexist in the one record type. Fields of the TypeScript interface that
the mapping never reads (`site_id`, `for_hotspot`, `admin_name`,
`qos_overwrite`, `qos_usage_quota`, `status_expires`, `end_time`,
`expiresAt`, `dataUsageLimitMBytes`) are omitted. -/

structure UniFiVoucher where
  -- legacy API fields (snake_case)
  _id : Option String := none
  create_time : Option Int := none
  code : String
  quota : Option Int := none
  duration : Option Int := none
  used : Option Int := none
  qos_rate_max_up : Option Int := none
  qos_rate_max_down : Option Int := none
  note : Option String := none
  status : Option String := none
  start_time : Option Int := none
  -- modern Integration API fields (camelCase)
  id : Option String := none
  createdAt : Option String := none
  name : Option String := none
  authorizedGuestLimit : Option Int := none
  authorizedGuestCount : Option Int := none
  activatedAt : Option String := none
  expired : Option Bool := none
  timeLimitMinutes : Option Int := none
  rxRateLimitKbps : Option Int := none
  txRateLimitKbps : Option Int := none
deriving DecidableEq, Repr

/-- Normalized voucher shape (`MappedVoucher` in `types/index.ts`).
`mapVouchers` always produces a numeric `duration`, `quota`, `createTime`
and `used`, so those are total here. -/
structure MappedVoucher where
  id : String
  code : String
  duration : Int
  quota : Int
  createTime : Int
  startTime : Option Int
  used : Int
  status : String
  qosRateMaxUp : Option Int
  qosRateMaxDown : Option Int
  note : Option String
deriving DecidableEq, Repr

/-! ## The mapping (`UniFiAdapter.mapVouchers`)

`dateToSec s` stands for `Math.floor(new Date(s).getTime() / 1000)` and
`now` for `Math.floor(Date.now() / 1000)`. -/

/-- The body of the `vouchers.map((v) => ...)` lambda in
`UniFiAdapter.mapVouchers`, translated clause by clause. -/
def mapVoucher (dateToSec : String → Int) (now : Int) (v : UniFiVoucher) :
    MappedVoucher :=
  -- get create time: `if (v.createdAt) ... else if (v.create_time) ... else now`
  let createTime : Int :=
    if jsTruthyStr v.createdAt then dateToSec (v.createdAt.getD "")
    else if jsTruthyNum v.create_time then v.create_time.getD 0
    else now
  -- get start time: `if (v.activatedAt) ... else if (v.start_time) ...`
  let startTime : Option Int :=
    if jsTruthyStr v.activatedAt then some (dateToSec (v.activatedAt.getD ""))
    else if jsTruthyNum v.start_time then v.start_time
    else none
  -- `const duration = v.timeLimitMinutes || v.duration || 0`
  let duration : Int := jsOrNum v.timeLimitMinutes (jsOrNum v.duration 0)
  -- `const quota = v.authorizedGuestLimit || v.quota || 1`
  let quota : Int := jsOrNum v.authorizedGuestLimit (jsOrNum v.quota 1)
  -- `const used = v.authorizedGuestCount || v.used || 0`
  let used : Int := jsOrNum v.authorizedGuestCount (jsOrNum v.used 0)
  -- status derivation
  let status : String :=
    if v.expired = some true then "EXPIRED"
    else if jsTruthyStr v.status then v.status.getD ""
    else if used > 0 && quota = 1 then "USED"
    else if quota = 1 then "VALID_ONE"
    else "VALID_MULTI"
  { id := jsOrStr v.id (jsOrStr v._id v.code)
    code := v.code
    duration := duration
    quota := quota
    createTime := createTime
    startTime := startTime
    used := used
    status := status
    qosRateMaxUp := jsOrNumOpt v.txRateLimitKbps v.qos_rate_max_up
    qosRateMaxDown := jsOrNumOpt v.rxRateLimitKbps v.qos_rate_max_down
    note := jsOrStrOpt v.name v.note }

/-- `UniFiAdapter.mapVouchers`: map every raw record. -/
def mapVouchers (dateToSec : String → Int) (now : Int)
    (vouchers : List UniFiVoucher) : List MappedVoucher :=
  vouchers.map (mapVoucher dateToSec now)

/-- Effective (modern-preferred, defaulted) used count, as computed inside
`mapVouchers`: `v.authorizedGuestCount || v.used || 0`. -/
def effUsed (v : UniFiVoucher) : Int :=
  jsOrNum v.authorizedGuestCount (jsOrNum v.used 0)

/-- Effective (modern-preferred, defaulted) quota, as computed inside
`mapVouchers`: `v.authorizedGuestLimit || v.quota || 1`. -/
def effQuota (v : UniFiVoucher) : Int :=
  jsOrNum v.authorizedGuestLimit (jsOrNum v.quota 1)

/-! ## WLAN listing (`UniFiAdapter.getAvailableWLANs` / `fetchWLANs`)

The two WLAN endpoints (proxy path, then direct path) and, when the
adapter is not yet authenticated, the `login()` call, are modelled by an
environment record scripting each outside interaction's outcome. A
`.error e` entry stands for the HTTP call throwing (any status ≥ 400,
including 401, or a network failure); `.ok none` stands for a 2xx
response whose body has no `data` array. -/

/-- Raw WLAN record fields read by the mapping (`UniFiWLAN`). -/
structure UniFiWLAN where
  name : Option String := none
  enabled : Option Bool := none
  security : Option String := none
  is_guest : Option Bool := none
  ssid : Option String := none
  isEnabled : Option Bool := none
  wlanType : Option String := none
  securityMode : Option String := none
  isGuest : Option Bool := none
deriving DecidableEq, Repr

/-- Normalized WLAN shape (`AvailableWLAN`). `getAvailableWLANs` always
fills `enabled`, `security` and `isGuest`, so they are total here. -/
structure AvailableWLAN where
  ssid : String
  name : Option String
  enabled : Bool
  security : String
  isGuest : Bool
deriving DecidableEq, Repr

/-- JS `s.includes(pat)` on strings. -/
def strIncludes (s pat : String) : Bool :=
  decide (pat.toList <:+: s.toList)

/-- `UniFiAdapter.mapSecurityMode`. -/
def mapSecurityMode (wlan : UniFiWLAN) : String :=
  -- `const securityMode = wlan.securityMode || wlan.security || wlan.wlanType`
  let securityMode : Option String :=
    jsOrStrOpt wlan.securityMode (jsOrStrOpt wlan.security wlan.wlanType)
  -- `if (!securityMode || securityMode === 'open') return 'open'`
  if !jsTruthyStr securityMode || securityMode = some "open" then "open"
  else
    let m := securityMode.getD ""
    let normalized := m.toLower
    if strIncludes normalized "wpa3" then "wpa3"
    else if strIncludes normalized "wpa2" then "wpa2"
    else if strIncludes normalized "wpa" then "wpa"
    else if strIncludes normalized "wep" then "wep"
    else m

/-- The normalization lambda inside `getAvailableWLANs`
(`??` is nullish coalescing, so a present `false` is kept). -/
def mapWLAN (wlan : UniFiWLAN) : AvailableWLAN :=
  { ssid := jsOrStr wlan.ssid (jsOrStr wlan.name "Unknown")
    name := wlan.name
    enabled := wlan.isEnabled.getD (wlan.enabled.getD true)
    security := mapSecurityMode wlan
    isGuest := wlan.isGuest.getD (wlan.is_guest.getD false) }

/-- One scripted outcome of an HTTP GET returning an optional `data`
array: the call may throw (`error`), or succeed with or without data. -/
abbrev WlanFetchOutcome := Except String (Option (List UniFiWLAN))

/-- Environment for a `getAvailableWLANs` run. -/
structure WlanEnv where
  /-- Outcome of `login()` when `getAvailableWLANs` has to call it. -/
  loginOutcome : Except String Unit
  /-- `GET /proxy/network/api/s/{site}/rest/wlanconf`. -/
  proxyWlan : WlanFetchOutcome
  /-- `GET /api/s/{site}/rest/wlanconf`. -/
  directWlan : WlanFetchOutcome
deriving Repr

/-- Adapter-boundary events recorded during a `getAvailableWLANs` run. -/
inductive WlanEvent where
  | loginAttempt
  | proxyFetch
  | directFetch
deriving DecidableEq, Repr

/-- `UniFiAdapter.fetchWLANs`: try the proxy path; on a throw or a
response without `data`, fall through to the direct path, whose throw
propagates; a direct response without `data` yields `[]`. -/
def fetchWLANs (env : WlanEnv) :
    Except String (List UniFiWLAN) × List WlanEvent :=
  match env.proxyWlan with
  | .ok (some d) => (.ok d, [.proxyFetch])
  | .ok none =>
    match env.directWlan with
    | .ok od => (.ok (od.getD []), [.proxyFetch, .directFetch])
    | .error e => (.error e, [.proxyFetch, .directFetch])
  | .error _ =>
    match env.directWlan with
    | .ok od => (.ok (od.getD []), [.proxyFetch, .directFetch])
    | .error e => (.error e, [.proxyFetch, .directFetch])

/-- The body of `getAvailableWLANs` after the login guard: the whole
fetch + normalize + filter is inside `try`; any throw is caught and an
empty list returned. -/
def getAvailableWLANsBody (env : WlanEnv) :
    Except String (List AvailableWLAN) × List WlanEvent :=
  match fetchWLANs env with
  | (.ok wlans, evs) =>
    (.ok (((wlans.map mapWLAN)).filter (fun w => w.enabled != false)), evs)
  | (.error _, evs) => (.ok [], evs)

/-- `UniFiAdapter.getAvailableWLANs`: `if (!this.isLoggedIn) await
this.login();` runs OUTSIDE the try/catch, so a login failure
propagates; everything after it is caught and turned into `[]`. -/
def getAvailableWLANs (env : WlanEnv) (isLoggedIn : Bool) :
    Except String (List AvailableWLAN) × List WlanEvent :=
  if isLoggedIn then getAvailableWLANsBody env
  else
    match env.loginOutcome with
    | .error e => (.error e, [.loginAttempt])
    | .ok _ =>
      let (r, evs) := getAvailableWLANsBody env
      (r, .loginAttempt :: evs)

/-! ## Session-expiry retry (`fetchRawVouchers`, `deleteVoucher`)

Each run is modelled against a script listing, in order, the outcome of
each raw HTTP attempt of the operation. On a 401 the code clears the
authenticated flag, re-runs `login()` (assumed here to succeed, which is
the hypothesis of the session-expiry claim) and recursively re-enters the
operation; any other error propagates. The returned `Nat` counts the
attempts consumed; `scriptExhausted` means the recursion demanded yet
another attempt beyond the script. -/

/-- Outcome of one raw voucher-fetch attempt against the controller. -/
inductive FetchOutcome where
  /-- 2xx with a voucher list. -/
  | ok (vs : List UniFiVoucher)
  /-- HTTP 401: `isSessionExpired(error)` is true. -/
  | http401
  /-- any other failure. -/
  | fail (e : String)
deriving DecidableEq, Repr

/-- Result of a whole `fetchRawVouchers()` call. -/
inductive FetchRun where
  | ok (vs : List UniFiVoucher)
  | raised (e : String)
  | scriptExhausted
deriving DecidableEq, Repr

/-- `UniFiAdapter.fetchRawVouchers` over an attempt script:
`catch (error) { if (this.isSessionExpired(error)) { this.isLoggedIn =
false; await this.login(); return this.fetchRawVouchers(); } throw
error; }` — the 401 branch re-enters the whole operation. -/
def fetchRawVouchers : List FetchOutcome → FetchRun × Nat
  | [] => (.scriptExhausted, 0)
  | .ok vs :: _ => (.ok vs, 1)
  | .fail e :: _ => (.raised e, 1)
  | .http401 :: rest =>
    let r := fetchRawVouchers rest
    (r.1, r.2 + 1)

/-- Outcome of one raw delete attempt against the controller. -/
inductive DeleteOutcome where
  | ok
  | http401
  | fail (e : String)
deriving DecidableEq, Repr

/-- Result of a whole `deleteVoucher()` call. -/
inductive DeleteRun where
  | ok
  | raised (e : String)
  | scriptExhausted
deriving DecidableEq, Repr

/-- `UniFiAdapter.deleteVoucher` over an attempt script; its
session-expiry handler is identical to the one in `fetchRawVouchers`
(`return this.deleteVoucher(voucherId)` after re-login). -/
def deleteVoucher : List DeleteOutcome → DeleteRun × Nat
  | [] => (.scriptExhausted, 0)
  | .ok :: _ => (.ok, 1)
  | .fail e :: _ => (.raised e, 1)
  | .http401 :: rest =>
    let r := deleteVoucher rest
    (r.1, r.2 + 1)

/-! ## Login and connectivity probe (`login` / `testConnectivity`)

`login()` first awaits `testConnectivity()` — a bare `GET /` on a client
with `validateStatus: () => true`, so only a network-level failure (with
an axios error code such as ECONNREFUSED) throws — and only afterwards
runs the authentication phase (`loginWithApiKey` or
`loginWithCredentials`, chosen by configuration). The authentication
phase is abstracted to its scripted outcome. -/

/-- Controller connection parameters read from configuration. -/
structure UniFiCfg where
  host : String
  port : Int
  site : String
deriving DecidableEq, Repr

/-- The `ConnectionError` raised by `testConnectivity`, with the fields
the error class carries. -/
structure ConnectionErrorData where
  message : String
  controllerType : String
  host : String
  port : Int
  errorCode : String
deriving DecidableEq, Repr

/-- `UniFiAdapter.getConnectionErrorMessage`. -/
def getConnectionErrorMessage (cfg : UniFiCfg) (errorCode : String) :
    String :=
  let hostPort := cfg.host ++ ":" ++ toString cfg.port
  if errorCode = "ECONNREFUSED" then
    "Connection refused. The UniFi Controller at " ++ hostPort ++
      " is not accepting connections. " ++
      "Please verify the controller is running and the host/port are correct."
  else if errorCode = "ETIMEDOUT" || errorCode = "ECONNABORTED" then
    "Connection timed out. The UniFi Controller at " ++ hostPort ++
      " did not respond. " ++
      "Please check network connectivity and firewall settings."
  else if errorCode = "ENOTFOUND" then
    "Host not found. Could not resolve hostname " ++ cfg.host ++ ". " ++
      "Please check the hostname is spelled correctly."
  else if errorCode = "DEPTH_ZERO_SELF_SIGNED_CERT" ||
      errorCode = "UNABLE_TO_VERIFY_LEAF_SIGNATURE" ||
      errorCode = "CERT_HAS_EXPIRED" then
    "SSL/TLS certificate error when connecting to " ++ cfg.host ++ ". " ++
      "Set UNIFI_SKIP_SSL_VERIFY=true if using a self-signed certificate."
  else
    "Could not connect to UniFi Controller at " ++ hostPort ++ ". " ++
      "Error: " ++ errorCode

/-- A login failure is either the probe's `ConnectionError` or a failure
of the authentication phase (`AuthenticationError` and friends). -/
inductive LoginFailure where
  | conn (e : ConnectionErrorData)
  | auth (msg : String)
deriving DecidableEq, Repr

/-- Environment for a `login()` run. -/
structure LoginEnv where
  /-- Network-level outcome of the probe GET: `.error code` is an axios
  error code (ECONNREFUSED, ETIMEDOUT, ...); any HTTP response at all is
  `.ok` because the probe accepts every status. -/
  probe : Except String Unit
  /-- Scripted outcome of the authentication phase, when reached. -/
  auth : Except String Unit
deriving Repr

/-- Events at the controller boundary during `login()`. -/
inductive LoginEvent where
  | connectivityProbe
  | authAttempt
deriving DecidableEq, Repr

/-- `UniFiAdapter.testConnectivity`: probe, and on a network failure
throw a `ConnectionError` carrying the classified message, the host, the
port and the raw error code. -/
def testConnectivity (cfg : UniFiCfg) (env : LoginEnv) :
    Except ConnectionErrorData Unit :=
  match env.probe with
  | .ok _ => .ok ()
  | .error code =>
    .error
      { message := getConnectionErrorMessage cfg code
        controllerType := "unifi"
        host := cfg.host
        port := cfg.port
        errorCode := code }

/-- `UniFiAdapter.login`: `await this.testConnectivity();` then the
authentication phase. -/
def login (cfg : UniFiCfg) (env : LoginEnv) :
    Except LoginFailure Unit × List LoginEvent :=
  match testConnectivity cfg env with
  | .error e => (.error (.conn e), [.connectivityProbe])
  | .ok _ =>
    match env.auth with
    | .ok _ => (.ok (), [.connectivityProbe, .authAttempt])
    | .error m => (.error (.auth m), [.connectivityProbe, .authAttempt])

/-! ## The sync service command loop (`processCommands` / `processCommand`)

`processCommand` acknowledges the command first, then dispatches by type
inside a try block whose catch reports a completion failure; the
`disconnect` dispatch calls `stop()` and returns before the completion
call. The dispatch bodies (`performSync`, `handleDeleteVoucherCommand`)
are abstracted to a scripted outcome per command — `.error e` meaning
the handler threw with message `e`. The cloud calls themselves
(`acknowledgeCommand` / `completeCommand`) are assumed to succeed, which
is the framing of the batch-processing claims. -/

/-- Command types; `other` stands for any unrecognized type string. -/
inductive CommandType where
  | sync_now
  | delete_voucher
  | disconnect
  | other (s : String)
deriving DecidableEq, Repr

/-- A cloud command as the loop consumes it (`VorioCommand`). -/
structure VorioCommand where
  id : String
  type : CommandType
deriving DecidableEq, Repr

/-- The slice of `SyncService` state the command loop touches: the
running flag, the two interval timers (modelled as set / cleared) and
`status.connected`. -/
structure SyncServiceState where
  isRunning : Bool
  commandPollInterval : Bool
  syncInterval : Bool
  connected : Bool
deriving DecidableEq, Repr

/-- `SyncService.stop`: idempotent — returns at once when not running;
otherwise clears both timers, disconnects (best-effort, errors
swallowed), logs out (best-effort) and marks disconnected. -/
def stop (st : SyncServiceState) : SyncServiceState :=
  if st.isRunning then
    { isRunning := false
      commandPollInterval := false
      syncInterval := false
      connected := false }
  else st

/-- Observable calls made while processing commands: the two cloud calls
of the command lifecycle, plus a marker for the dispatch (the command's
side effects) itself. -/
inductive CloudCall where
  | ack (id : String)
  | dispatch (id : String)
  | complete (id : String) (success : Bool) (error : Option String)
deriving DecidableEq, Repr

/-- The `switch (command.type)` dispatch, abstracted over the scripted
outcome `disp` of the handlers that can throw; an unknown type only logs
a warning and cannot throw, and `disconnect` is routed before this. -/
def runDispatch (disp : VorioCommand → Except String Unit)
    (c : VorioCommand) : Except String Unit :=
  match c.type with
  | .sync_now => disp c
  | .delete_voucher => disp c
  | .disconnect => .ok ()
  | .other _ => .ok ()

/-- The calls emitted for one command: always the ack first, then the
dispatch; a `disconnect` returns without completing, every other command
is completed with its dispatch outcome. -/
def commandCalls (disp : VorioCommand → Except String Unit)
    (c : VorioCommand) : List CloudCall :=
  match c.type with
  | .disconnect => [.ack c.id, .dispatch c.id]
  | _ =>
    match runDispatch disp c with
    | .ok _ => [.ack c.id, .dispatch c.id, .complete c.id true none]
    | .error e => [.ack c.id, .dispatch c.id, .complete c.id false (some e)]

/-- `SyncService.processCommand`: ack, dispatch, complete (or stop). -/
def processCommand (disp : VorioCommand → Except String Unit)
    (st : SyncServiceState) (c : VorioCommand) :
    SyncServiceState × List CloudCall :=
  match c.type with
  | .disconnect => (stop st, commandCalls disp c)
  | _ => (st, commandCalls disp c)

/-- `SyncService.processCommands`: `for (const command of commands)
await this.processCommand(command);` — every fetched command is
processed in order, with no early exit. -/
def processCommands (disp : VorioCommand → Except String Unit)
    (st : SyncServiceState) :
    List VorioCommand → SyncServiceState × List CloudCall
  | [] => (st, [])
  | c :: cs =>
    let (st1, tr) := processCommand disp st c
    let (st2, tr1) := processCommands disp st1 cs
    (st2, tr ++ tr1)

/-! ## Projection lemmas for the voucher mapping -/

/-- The mapped quota is the modern-preferred, defaulted quota. -/
theorem mapVoucher_quota (d : String → Int) (now : Int) (v : UniFiVoucher) :
    (mapVoucher d now v).quota = effQuota v := rfl

/-- The mapped used count is the modern-preferred, defaulted used count. -/
theorem mapVoucher_used (d : String → Int) (now : Int) (v : UniFiVoucher) :
    (mapVoucher d now v).used = effUsed v := rfl

/-- The status derivation of `mapVouchers`, written out. -/
theorem mapVoucher_status (d : String → Int) (now : Int) (v : UniFiVoucher) :
    (mapVoucher d now v).status =
      (if v.expired = some true then "EXPIRED"
       else if jsTruthyStr v.status then v.status.getD ""
       else if effUsed v > 0 && effQuota v = 1 then "USED"
       else if effQuota v = 1 then "VALID_ONE"
       else "VALID_MULTI") := rfl

/-! ## C2 — derived status of records without an explicit status -/

/-- C2: for a raw record without an explicit status field and without the
expired flag, the derived status of the mapped voucher satisfies
`quota = 1 ∧ used ≥ 1 → USED`, `quota = 1 ∧ used = 0 → VALID_ONE` and
`quota > 1 → VALID_MULTI`; and an explicit `expired = true` flag always
yields `EXPIRED`, regardless of used, quota or any explicit status. -/
theorem C2_status_derivation (d : String → Int) (now : Int)
    (v : UniFiVoucher) :
    (v.expired = some true → (mapVoucher d now v).status = "EXPIRED") ∧
    (v.status = none → v.expired ≠ some true →
      ((mapVoucher d now v).quota = 1 → 1 ≤ (mapVoucher d now v).used →
        (mapVoucher d now v).status = "USED") ∧
      ((mapVoucher d now v).quota = 1 → (mapVoucher d now v).used = 0 →
        (mapVoucher d now v).status = "VALID_ONE") ∧
      (1 < (mapVoucher d now v).quota →
        (mapVoucher d now v).status = "VALID_MULTI")) := by
  constructor
  · intro h
    simp [mapVoucher_status, h]
  · intro hs he
    have hst : (mapVoucher d now v).status =
        (if effUsed v > 0 && effQuota v = 1 then "USED"
         else if effQuota v = 1 then "VALID_ONE"
         else "VALID_MULTI") := by
      simp [mapVoucher_status, hs, he, jsTruthyStr]
    rw [mapVoucher_quota, mapVoucher_used] at *
    refine ⟨fun hq hu => ?_, fun hq hu => ?_, fun hq => ?_⟩
    · rw [hst]
      have : (effUsed v > 0 && effQuota v = 1) = true := by
        simp [hq]; omega
      simp [this]
    · rw [hst]
      have h1 : (effUsed v > 0 && effQuota v = 1) = false := by
        simp [hq, hu]
      simp [h1, hq]
      omega
    · rw [hst]
      have h1 : (effUsed v > 0 && effQuota v = 1) = false := by
        simp; omega
      have h2 : ¬ (effQuota v = 1) := by omega
      simp [h1, h2]

/-! ## C3 — modern-field preference -/

/-- C3 counterexample: a record providing both variants of the duration
field, with the modern `timeLimitMinutes` present but `0`: the mapped
duration is the legacy `60`, not the modern value `0` — JavaScript `||`
treats a present `0` as absent. -/
theorem C3_counterexample :
    (mapVoucher (fun _ => 0) 0
      { code := "C", timeLimitMinutes := some 0, duration := some 60 }).duration
        = 60 ∧
    (mapVoucher (fun _ => 0) 0
      { code := "C", timeLimitMinutes := some 0, duration := some 60 }).duration
        ≠ 0 :=
  ⟨rfl, by decide⟩

/-- C3 (amended): for every raw record providing both the legacy and the
modern variant of a field, the mapped voucher uses the modern variant's
value whenever that value is truthy in the JavaScript sense (a nonzero
number, a nonempty string); a falsy modern value falls back to the
legacy variant. -/
theorem C3_modern_preference (d : String → Int) (now : Int)
    (v : UniFiVoucher) :
    (∀ a : Int, v.timeLimitMinutes = some a → a ≠ 0 →
      (mapVoucher d now v).duration = a) ∧
    (∀ a : Int, v.authorizedGuestLimit = some a → a ≠ 0 →
      (mapVoucher d now v).quota = a) ∧
    (∀ a : Int, v.authorizedGuestCount = some a → a ≠ 0 →
      (mapVoucher d now v).used = a) ∧
    (∀ s : String, v.id = some s → s ≠ "" →
      (mapVoucher d now v).id = s) ∧
    (∀ a : Int, v.txRateLimitKbps = some a → a ≠ 0 →
      (mapVoucher d now v).qosRateMaxUp = some a) ∧
    (∀ a : Int, v.rxRateLimitKbps = some a → a ≠ 0 →
      (mapVoucher d now v).qosRateMaxDown = some a) ∧
    (∀ s : String, v.createdAt = some s → s ≠ "" →
      (mapVoucher d now v).createTime = d s) ∧
    (∀ s : String, v.activatedAt = some s → s ≠ "" →
      (mapVoucher d now v).startTime = some (d s)) ∧
    (∀ s : String, v.name = some s → s ≠ "" →
      (mapVoucher d now v).note = some s) := by
  refine ⟨fun a h hne => ?_, fun a h hne => ?_, fun a h hne => ?_,
    fun s h hne => ?_, fun a h hne => ?_, fun a h hne => ?_,
    fun s h hne => ?_, fun s h hne => ?_, fun s h hne => ?_⟩
  · show jsOrNum v.timeLimitMinutes (jsOrNum v.duration 0) = a
    simp [jsOrNum, h, hne]
  · show effQuota v = a
    simp [effQuota, jsOrNum, h, hne]
  · show effUsed v = a
    simp [effUsed, jsOrNum, h, hne]
  · show jsOrStr v.id (jsOrStr v._id v.code) = s
    simp [jsOrStr, h, hne]
  · show jsOrNumOpt v.txRateLimitKbps v.qos_rate_max_up = some a
    simp [jsOrNumOpt, h, hne]
  · show jsOrNumOpt v.rxRateLimitKbps v.qos_rate_max_down = some a
    simp [jsOrNumOpt, h, hne]
  · show (if jsTruthyStr v.createdAt then d (v.createdAt.getD "")
      else if jsTruthyNum v.create_time then v.create_time.getD 0
      else now) = d s
    simp [jsTruthyStr, h, hne]
  · show (if jsTruthyStr v.activatedAt then some (d (v.activatedAt.getD ""))
      else if jsTruthyNum v.start_time then v.start_time
      else none) = some (d s)
    simp [jsTruthyStr, h, hne]
  · show jsOrStrOpt v.name v.note = some s
    simp [jsOrStrOpt, h, hne]

/-! ## C6 — determinism of the mapping -/

/-- C6 counterexample: a record with neither `createdAt` nor
`create_time` gets `createTime = now`, so two applications of the
mapping to the identical record at clock readings 100 and 200 yield
different outputs. -/
theorem C6_counterexample :
    (mapVoucher (fun _ => 0) 100 { code := "C" }).createTime = 100 ∧
    (mapVoucher (fun _ => 0) 200 { code := "C" }).createTime = 200 :=
  ⟨rfl, rfl⟩

/-- C6 (amended): the mapping is a pure function of the raw record, the
date parser and the current clock reading; its output is independent of
the clock for every record carrying a truthy `createdAt` or
`create_time`. Only a record lacking both gets `createTime = now`, and
so differs between applications at different clock seconds. -/
theorem C6_determinism (d : String → Int) (now1 now2 : Int)
    (v : UniFiVoucher)
    (h : jsTruthyStr v.createdAt = true ∨ jsTruthyNum v.create_time = true) :
    mapVoucher d now1 v = mapVoucher d now2 v := by
  rcases h with h | h
  · simp [mapVoucher, h]
  · by_cases hc : jsTruthyStr v.createdAt
    · simp [mapVoucher, hc]
    · simp [mapVoucher, hc, h]

/-- C6 witness: a record with `create_time = 5` maps identically at
clock readings 100 and 200. -/
theorem C6_witness :
    mapVoucher (fun _ => 0) 100 { code := "C", create_time := some 5 } =
      mapVoucher (fun _ => 0) 200 { code := "C", create_time := some 5 } :=
  C6_determinism (fun _ => 0) 100 200 _ (Or.inr (by decide))

/-! ## C7 — the used-vs-quota invariant -/

/-- C7 counterexample: the mapping does not enforce `used ≤ quota`: the
raw record `quota = 1, used = 2` (quota present and nonzero, so not
unlimited) maps to `used = 2 > quota = 1`. -/
theorem C7_counterexample :
    (mapVoucher (fun _ => 0) 0
      { code := "C", quota := some 1, used := some 2 }).used = 2 ∧
    (mapVoucher (fun _ => 0) 0
      { code := "C", quota := some 1, used := some 2 }).quota = 1 ∧
    (mapVoucher (fun _ => 0) 0
      { code := "C", quota := some 1, used := some 2 }).quota <
      (mapVoucher (fun _ => 0) 0
        { code := "C", quota := some 1, used := some 2 }).used :=
  ⟨rfl, rfl, by decide⟩

/-- C7 (amended): the mapping preserves `used ≤ quota` — whenever the
raw record's effective (modern-preferred, defaulted) used count is at
most its effective quota, the mapped voucher satisfies `used ≤ quota` —
but does not itself restore the invariant for raw records violating it;
and an explicitly reported `status = EXPIRED` is always mapped to
`EXPIRED`, overriding the derivation heuristics. -/
theorem C7_invariant (d : String → Int) (now : Int) (v : UniFiVoucher) :
    (effUsed v ≤ effQuota v →
      (mapVoucher d now v).used ≤ (mapVoucher d now v).quota) ∧
    (v.status = some "EXPIRED" → (mapVoucher d now v).status = "EXPIRED") := by
  constructor
  · intro h
    rw [mapVoucher_used, mapVoucher_quota]
    exact h
  · intro h
    by_cases he : v.expired = some true
    · simp [mapVoucher_status, he]
    · simp [mapVoucher_status, he, h, jsTruthyStr]

/-! ## C10 — explicit quota 0 collapses to single-use -/

/-- C10: a legacy record with an explicit `quota = 0` (documented as
unlimited uses) maps to `quota = 1`: the mapping makes it
indistinguishable from the same record with `quota = 1`, and with a
positive used count and no explicit status or expired flag its derived
status is `USED`. -/
theorem C10_quota_zero (d : String → Int) (now : Int) (v : UniFiVoucher) :
    (v.authorizedGuestLimit = none → v.quota = some 0 →
      (mapVoucher d now v).quota = 1) ∧
    (mapVoucher d now { v with quota := some 0 } =
      mapVoucher d now { v with quota := some 1 }) ∧
    (∀ u : Int, v.authorizedGuestLimit = none → v.quota = some 0 →
      v.authorizedGuestCount = none → v.used = some u → 1 ≤ u →
      v.status = none → v.expired ≠ some true →
      (mapVoucher d now v).status = "USED") := by
  refine ⟨fun hg hq => ?_, ?_, fun u hg hq hc hu hu1 hs he => ?_⟩
  · rw [mapVoucher_quota]
    simp [effQuota, jsOrNum, hg, hq]
  · simp [mapVoucher, jsOrNum]
  · have hquota : effQuota v = 1 := by
      simp [effQuota, jsOrNum, hg, hq]
    have hused : effUsed v = u := by
      simp [effUsed, jsOrNum, hc, hu]
      omega
    rw [mapVoucher_status]
    have hcond : (effUsed v > 0 && effQuota v = 1) = true := by
      simp [hquota, hused]
      omega
    simp [he, hs, jsTruthyStr, hcond]

/-! ## C1 — the session-expiry (401) protocol -/

/-- C1 counterexample: against a controller answering 401 three times
and then succeeding, `fetchRawVouchers` re-authenticates and retries
after EVERY 401 — it makes four attempts and returns the success,
instead of raising after exactly one retry (two 401s in a row); and
`getAvailableWLANs`, already authenticated, on failing WLAN endpoints
performs no re-login and no retry at all: it swallows the error and
returns the empty list. -/
theorem C1_counterexample :
    fetchRawVouchers
        [.http401, .http401, .http401, .ok [{ code := "C" }]] =
      (.ok [{ code := "C" }], 4) ∧
    getAvailableWLANs
        { loginOutcome := .ok ()
          proxyWlan := .error "Request failed with status code 401"
          directWlan := .error "Request failed with status code 401" }
        true =
      (.ok [], [.proxyFetch, .directFetch]) :=
  ⟨rfl, rfl⟩

/-- C1 (amended): on a 401, `fetchRawVouchers` and `deleteVoucher` clear
the authenticated flag, re-run `login()` and re-enter the whole
operation, so repeated 401s produce repeated re-login-and-retry cycles
(one extra attempt per 401, with no bound) rather than raising after one
retry; a non-401 failure raises immediately without a retry; and
`getAvailableWLANs` takes part in no session-expiry protocol at all — an
already-authenticated run never re-runs `login()`, whatever the WLAN
endpoints answer. -/
theorem C1_session_expiry (rest : List FetchOutcome)
    (restD : List DeleteOutcome) (vs : List UniFiVoucher) (e : String)
    (env : WlanEnv) :
    fetchRawVouchers (.http401 :: rest) =
      ((fetchRawVouchers rest).1, (fetchRawVouchers rest).2 + 1) ∧
    fetchRawVouchers (.ok vs :: rest) = (.ok vs, 1) ∧
    fetchRawVouchers (.fail e :: rest) = (.raised e, 1) ∧
    deleteVoucher (.http401 :: restD) =
      ((deleteVoucher restD).1, (deleteVoucher restD).2 + 1) ∧
    WlanEvent.loginAttempt ∉ (getAvailableWLANs env true).2 := by
  refine ⟨rfl, rfl, rfl, rfl, ?_⟩
  show WlanEvent.loginAttempt ∉ (getAvailableWLANsBody env).2
  unfold getAvailableWLANsBody fetchWLANs
  rcases hp : env.proxyWlan with ep | op
  · rcases hd : env.directWlan with ed | od <;> simp
  · rcases op with _ | dd
    · rcases hd : env.directWlan with ed | od <;> simp
    · simp

/-! ## C8 — getAvailableWLANs error behaviour -/

/-- C8 counterexample: when the adapter is not authenticated,
`getAvailableWLANs` first awaits `login()` OUTSIDE its try/catch; a
login failure (here: an unreachable controller) propagates to the
caller instead of yielding an empty list — so the operation can raise. -/
theorem C8_counterexample :
    getAvailableWLANs
        { loginOutcome := .error "Connection refused"
          proxyWlan := .error "Connection refused"
          directWlan := .error "Connection refused" }
        false =
      (.error "Connection refused", [.loginAttempt]) :=
  rfl

/-- C8 (amended): once authenticated — or whenever the login it performs
first succeeds — `getAvailableWLANs` never raises: whatever the two
WLAN endpoints answer, it returns a list; and when every WLAN endpoint
fails it returns the empty list. Only a failing `login()` on an
unauthenticated adapter propagates. -/
theorem C8_wlan_no_raise (env : WlanEnv) (isLoggedIn : Bool) :
    (isLoggedIn = true ∨ env.loginOutcome = .ok () →
      ∃ l, (getAvailableWLANs env isLoggedIn).1 = .ok l) ∧
    (∀ ep ed, env.proxyWlan = .error ep → env.directWlan = .error ed →
      (getAvailableWLANs env true).1 = .ok []) := by
  have hbody : ∃ l, (getAvailableWLANsBody env).1 = .ok l := by
    unfold getAvailableWLANsBody fetchWLANs
    rcases hp : env.proxyWlan with ep | op
    · rcases hd : env.directWlan with ed | od <;> exact ⟨_, rfl⟩
    · rcases op with _ | dd
      · rcases hd : env.directWlan with ed | od <;> exact ⟨_, rfl⟩
      · exact ⟨_, rfl⟩
  constructor
  · intro h
    rcases isLoggedIn with _ | _
    · rcases h with h | h
      · cases h
      · show ∃ l,
          ((match env.loginOutcome with
            | .error e => ((.error e : Except String (List AvailableWLAN)),
                [WlanEvent.loginAttempt])
            | .ok _ =>
              ((getAvailableWLANsBody env).1,
                .loginAttempt :: (getAvailableWLANsBody env).2)).1 = .ok l)
        rw [h]
        exact hbody
    · exact hbody
  · intro ep ed hp hd
    show (getAvailableWLANsBody env).1 = .ok []
    unfold getAvailableWLANsBody fetchWLANs
    rw [hp, hd]

/-- C8 witness: an authenticated run against a backend erroring on every
WLAN endpoint returns a list (the theorem's first part at a concrete
environment). -/
theorem C8_witness :
    ∃ l, (getAvailableWLANs
        { loginOutcome := .error "down"
          proxyWlan := .error "500"
          directWlan := .error "500" }
        true).1 = .ok l :=
  (C8_wlan_no_raise _ true).1 (Or.inl rfl)

/-! ## C9 — login that cannot reach the controller -/

/-- C9: when the connectivity probe fails with ECONNREFUSED, `login()`
raises a `ConnectionError` carrying the host, the port and the refused
error code (with the refused-classification message), and makes no
authentication attempt: the probe runs first and aborts the login. -/
theorem C9_login_refused (cfg : UniFiCfg) (env : LoginEnv)
    (h : env.probe = .error "ECONNREFUSED") :
    login cfg env =
      (.error (.conn
        { message := getConnectionErrorMessage cfg "ECONNREFUSED"
          controllerType := "unifi"
          host := cfg.host
          port := cfg.port
          errorCode := "ECONNREFUSED" }), [.connectivityProbe]) ∧
    LoginEvent.authAttempt ∉ (login cfg env).2 := by
  have hl : login cfg env =
      (.error (.conn
        { message := getConnectionErrorMessage cfg "ECONNREFUSED"
          controllerType := "unifi"
          host := cfg.host
          port := cfg.port
          errorCode := "ECONNREFUSED" }), [.connectivityProbe]) := by
    unfold login testConnectivity
    rw [h]
  refine ⟨hl, ?_⟩
  rw [hl]
  simp

/-- C9 witness: the theorem applied to a concrete configuration and a
probe refused at the network level. -/
theorem C9_witness :
    login { host := "controller.local", port := 8443, site := "default" }
        { probe := .error "ECONNREFUSED", auth := .ok () } =
      (.error (.conn
        { message := getConnectionErrorMessage
            { host := "controller.local", port := 8443, site := "default" }
            "ECONNREFUSED"
          controllerType := "unifi"
          host := "controller.local"
          port := 8443
          errorCode := "ECONNREFUSED" }), [.connectivityProbe]) :=
  (C9_login_refused _ _ rfl).1

/-! ## Command-loop lemmas -/

/-- The fully stopped service state. -/
def stoppedState : SyncServiceState :=
  { isRunning := false
    commandPollInterval := false
    syncInterval := false
    connected := false }

/-- The calls emitted by one `processCommand` are `commandCalls`. -/
theorem processCommand_calls (disp : VorioCommand → Except String Unit)
    (st : SyncServiceState) (c : VorioCommand) :
    (processCommand disp st c).2 = commandCalls disp c := by
  rcases c with ⟨i, ty⟩
  cases ty <;> rfl

/-- `processCommand` changes the state only for a `disconnect`. -/
theorem processCommand_state (disp : VorioCommand → Except String Unit)
    (st : SyncServiceState) (c : VorioCommand) :
    (processCommand disp st c).1 =
      if c.type = CommandType.disconnect then stop st else st := by
  rcases c with ⟨i, ty⟩
  cases ty <;> simp [processCommand]

/-- Unfolding one step of the batch loop. -/
theorem processCommands_cons (disp : VorioCommand → Except String Unit)
    (st : SyncServiceState) (c : VorioCommand) (cs : List VorioCommand) :
    processCommands disp st (c :: cs) =
      ((processCommands disp (processCommand disp st c).1 cs).1,
        (processCommand disp st c).2 ++
          (processCommands disp (processCommand disp st c).1 cs).2) := rfl

/-- The whole batch trace is the per-command calls, in batch order. -/
theorem processCommands_trace (disp : VorioCommand → Except String Unit)
    (cmds : List VorioCommand) (st : SyncServiceState) :
    (processCommands disp st cmds).2 = cmds.flatMap (commandCalls disp) := by
  induction cmds generalizing st with
  | nil => rfl
  | cons c cs ih =>
    rw [processCommands_cons]
    simp [processCommand_calls, ih]

/-- The final state of a batch: stopped when the service was running and
the batch holds a `disconnect`; untouched otherwise. -/
theorem processCommands_state (disp : VorioCommand → Except String Unit)
    (cmds : List VorioCommand) (st : SyncServiceState) :
    (processCommands disp st cmds).1 =
      if st.isRunning &&
          cmds.any (fun c => c.type == CommandType.disconnect) then
        stoppedState
      else st := by
  induction cmds generalizing st with
  | nil => simp [processCommands]
  | cons c cs ih =>
    have hfst : (processCommands disp st (c :: cs)).1 =
        (processCommands disp (processCommand disp st c).1 cs).1 := rfl
    rw [hfst, processCommand_state]
    by_cases hd : c.type = CommandType.disconnect
    · rw [if_pos hd]
      by_cases hr : st.isRunning
      · have hstop : stop st = stoppedState := by
          simp [stop, hr, stoppedState]
        rw [hstop, ih]
        simp [stoppedState, hd, hr]
      · rw [Bool.not_eq_true] at hr
        have hstop : stop st = st := by
          simp [stop, hr]
        rw [hstop, ih]
        simp [hr]
    · rw [if_neg hd, ih]
      have hbe : (c.type == CommandType.disconnect) = false := by
        simp [hd]
      simp [hbe]

/-- Every `commandCalls` list opens with the acknowledgment. -/
theorem ack_mem_commandCalls (disp : VorioCommand → Except String Unit)
    (c : VorioCommand) : CloudCall.ack c.id ∈ commandCalls disp c := by
  rcases c with ⟨i, ty⟩
  cases ty with
  | disconnect => simp [commandCalls]
  | sync_now =>
    rcases hrd : runDispatch disp ⟨i, .sync_now⟩ with e | u <;>
      simp [commandCalls, hrd]
  | delete_voucher =>
    rcases hrd : runDispatch disp ⟨i, .delete_voucher⟩ with e | u <;>
      simp [commandCalls, hrd]
  | other s =>
    rcases hrd : runDispatch disp ⟨i, .other s⟩ with e | u <;>
      simp [commandCalls, hrd]

/-- A non-`disconnect` command's calls are exactly acknowledge, then the
dispatch, then the completion carrying the dispatch outcome. -/
theorem commandCalls_of_ne_disconnect
    (disp : VorioCommand → Except String Unit) (c : VorioCommand)
    (h : c.type ≠ CommandType.disconnect) :
    commandCalls disp c =
      [CloudCall.ack c.id, CloudCall.dispatch c.id,
        match runDispatch disp c with
        | .ok _ => CloudCall.complete c.id true none
        | .error e => CloudCall.complete c.id false (some e)] := by
  rcases c with ⟨i, ty⟩
  cases ty with
  | disconnect => exact absurd rfl h
  | sync_now =>
    rcases hrd : runDispatch disp ⟨i, .sync_now⟩ with e | u <;>
      simp [commandCalls, hrd]
  | delete_voucher =>
    rcases hrd : runDispatch disp ⟨i, .delete_voucher⟩ with e | u <;>
      simp [commandCalls, hrd]
  | other s =>
    rcases hrd : runDispatch disp ⟨i, .other s⟩ with e | u <;>
      simp [commandCalls, hrd]

/-- A completion call in a command's calls names that command's id, and
only a non-`disconnect` command emits one. -/
theorem complete_mem_commandCalls
    (disp : VorioCommand → Except String Unit) (c : VorioCommand)
    (i : String) (b : Bool) (eo : Option String)
    (hmem : CloudCall.complete i b eo ∈ commandCalls disp c) :
    c.id = i ∧ c.type ≠ CommandType.disconnect := by
  rcases c with ⟨cid, ty⟩
  cases ty with
  | disconnect => simp [commandCalls] at hmem
  | sync_now =>
    rcases hrd : runDispatch disp ⟨cid, .sync_now⟩ with e | u <;>
      simp [commandCalls, hrd] at hmem <;> simp [hmem.1]
  | delete_voucher =>
    rcases hrd : runDispatch disp ⟨cid, .delete_voucher⟩ with e | u <;>
      simp [commandCalls, hrd] at hmem <;> simp [hmem.1]
  | other s =>
    rcases hrd : runDispatch disp ⟨cid, .other s⟩ with e | u <;>
      simp [commandCalls, hrd] at hmem <;> simp [hmem.1]

/-! ## C4 — batch processing survives a mid-batch dispatch failure -/

/-- C4: in a batch of commands (none of them `disconnect`) where the
dispatch of the command at position k throws with message e, the batch
trace is exactly, per command in order, acknowledge / dispatch /
complete: every command is acknowledged, command k is completed with
success = false carrying e, every command whose dispatch is clean is
completed with success = true, every command whose dispatch throws is
completed with its own error, and each command's calls are its ack,
then its side effects, then its completion — a mid-batch failure never
prevents the remaining commands from being processed. -/
theorem C4_batch_processing (disp : VorioCommand → Except String Unit)
    (st : SyncServiceState) (cmds : List VorioCommand) (k : Nat)
    (e : String)
    (hnd : ∀ c ∈ cmds, c.type ≠ CommandType.disconnect)
    (hk : k < cmds.length)
    (hke : runDispatch disp (cmds.get ⟨k, hk⟩) = .error e) :
    (processCommands disp st cmds).2 = cmds.flatMap (commandCalls disp) ∧
    (∀ c ∈ cmds, CloudCall.ack c.id ∈ (processCommands disp st cmds).2) ∧
    CloudCall.complete (cmds.get ⟨k, hk⟩).id false (some e) ∈
      (processCommands disp st cmds).2 ∧
    (∀ c ∈ cmds, runDispatch disp c = .ok () →
      CloudCall.complete c.id true none ∈ (processCommands disp st cmds).2) ∧
    (∀ c ∈ cmds, ∀ e2, runDispatch disp c = .error e2 →
      CloudCall.complete c.id false (some e2) ∈
        (processCommands disp st cmds).2) ∧
    (∀ c ∈ cmds, ∃ b eo, commandCalls disp c =
      [CloudCall.ack c.id, CloudCall.dispatch c.id,
        CloudCall.complete c.id b eo]) := by
  have htr := processCommands_trace disp cmds st
  have herr : ∀ c ∈ cmds, ∀ e2, runDispatch disp c = .error e2 →
      CloudCall.complete c.id false (some e2) ∈
        (processCommands disp st cmds).2 := by
    intro c hc e2 hrd
    rw [htr]
    rw [List.mem_flatMap]
    refine ⟨c, hc, ?_⟩
    rw [commandCalls_of_ne_disconnect disp c (hnd c hc), hrd]
    simp
  refine ⟨htr, ?_, ?_, ?_, herr, ?_⟩
  · intro c hc
    rw [htr, List.mem_flatMap]
    exact ⟨c, hc, ack_mem_commandCalls disp c⟩
  · exact herr (cmds.get ⟨k, hk⟩) (cmds.get_mem k hk) e hke
  · intro c hc hrd
    rw [htr, List.mem_flatMap]
    refine ⟨c, hc, ?_⟩
    rw [commandCalls_of_ne_disconnect disp c (hnd c hc), hrd]
    simp
  · intro c hc
    rw [commandCalls_of_ne_disconnect disp c (hnd c hc)]
    rcases hrd : runDispatch disp c with e2 | u
    · exact ⟨false, some e2, rfl⟩
    · exact ⟨true, none, rfl⟩

/-- C4 witness: a three-command batch whose middle command's dispatch
throws "boom": the middle command is completed with success = false and
the error message, and the commands after it are still processed. -/
theorem C4_witness :
    CloudCall.complete "k" false (some "boom") ∈
      (processCommands
        (fun c => if c.id = "k" then .error "boom" else .ok ())
        { isRunning := true, commandPollInterval := true,
          syncInterval := true, connected := true }
        [{ id := "a", type := .sync_now },
         { id := "k", type := .delete_voucher },
         { id := "b", type := .sync_now }]).2 ∧
    CloudCall.complete "b" true none ∈
      (processCommands
        (fun c => if c.id = "k" then .error "boom" else .ok ())
        { isRunning := true, commandPollInterval := true,
          syncInterval := true, connected := true }
        [{ id := "a", type := .sync_now },
         { id := "k", type := .delete_voucher },
         { id := "b", type := .sync_now }]).2 := by
  have h := C4_batch_processing
    (fun c => if c.id = "k" then .error "boom" else .ok ())
    { isRunning := true, commandPollInterval := true,
      syncInterval := true, connected := true }
    [{ id := "a", type := .sync_now },
     { id := "k", type := .delete_voucher },
     { id := "b", type := .sync_now }]
    1 "boom" (by decide) (by decide) (by rfl)
  refine ⟨h.2.2.1, ?_⟩
  exact h.2.2.2.1 { id := "b", type := .sync_now } (by decide) (by rfl)

/-! ## C5 — the disconnect command -/

/-- C5: a batch containing a `disconnect` command (the service running,
command ids distinct) leaves the service stopped — both loop timers
cleared and the status marked disconnected — and the disconnect command
is acknowledged but never completed: no completion call with its id
appears anywhere in the batch trace. -/
theorem C5_disconnect_command (disp : VorioCommand → Except String Unit)
    (st : SyncServiceState) (cmds : List VorioCommand) (c : VorioCommand)
    (hc : c ∈ cmds) (hd : c.type = CommandType.disconnect)
    (hrun : st.isRunning = true)
    (hids : (cmds.map VorioCommand.id).Nodup) :
    (processCommands disp st cmds).1 = stoppedState ∧
    CloudCall.ack c.id ∈ (processCommands disp st cmds).2 ∧
    (∀ b eo, CloudCall.complete c.id b eo ∉ (processCommands disp st cmds).2) := by
  refine ⟨?_, ?_, ?_⟩
  · rw [processCommands_state]
    have hany : cmds.any (fun x => x.type == CommandType.disconnect) = true := by
      rw [List.any_eq_true]
      exact ⟨c, hc, by simp [hd]⟩
    simp [hrun, hany]
  · rw [processCommands_trace, List.mem_flatMap]
    exact ⟨c, hc, ack_mem_commandCalls disp c⟩
  · intro b eo hmem
    rw [processCommands_trace, List.mem_flatMap] at hmem
    rcases hmem with ⟨c2, hc2, hm2⟩
    rcases complete_mem_commandCalls disp c2 c.id b eo hm2 with ⟨hid, hty⟩
    have : c2 = c := List.inj_on_of_nodup_map hids hc2 hc hid
    rw [this] at hty
    exact hty hd

/-- C5 witness: a batch of sync, disconnect, sync against a running
service: the final state is fully stopped and the disconnect command
"d" is never completed. -/
theorem C5_witness :
    (processCommands (fun _ => .ok ())
      { isRunning := true, commandPollInterval := true,
        syncInterval := true, connected := true }
      [{ id := "a", type := .sync_now },
       { id := "d", type := .disconnect },
       { id := "b", type := .sync_now }]).1 = stoppedState ∧
    CloudCall.complete "d" true none ∉
      (processCommands (fun _ => .ok ())
        { isRunning := true, commandPollInterval := true,
          syncInterval := true, connected := true }
        [{ id := "a", type := .sync_now },
         { id := "d", type := .disconnect },
         { id := "b", type := .sync_now }]).2 := by
  have h := C5_disconnect_command (fun _ => .ok ())
    { isRunning := true, commandPollInterval := true,
      syncInterval := true, connected := true }
    [{ id := "a", type := .sync_now },
     { id := "d", type := .disconnect },
     { id := "b", type := .sync_now }]
    { id := "d", type := .disconnect }
    (by decide) rfl rfl (by decide)
  exact ⟨h.1, h.2.2 true none⟩

end VorioAgent
